/-
Verification of the ArduPilot manager core (src/core/services/ardupilot_manager):
a shallow embedding of ArduPilotManager.py and typedefs.py, with theorems about
the endpoint registry (add/remove with rollback), the process supervisor
(terminate / kill / restart / auto-restart loop) and the platform orchestrator
(board selection, SITL frame defaulting).

External collaborator modules imported by ArduPilotManager.py (mavlink_proxy,
firmware, flight_controller_detector, settings, mavlink_comm) are not part of
the sources; where their behaviour matters it is modelled from the spec, as
noted on each definition.  Failures of collaborator calls are represented by
boolean oracles in an environment record, so every "may raise" point of the
Python code is an explicit branch here.
-/
import Mathlib

namespace AirOS

/-- Modelled from the spec: `mavlink_proxy.Endpoint.EndpointType` is not under
src/, but src/core/services/ardupilot_manager/typedefs.py declares the same
enumeration (UDPServer, UDPClient, TCPServer, TCPClient, Serial). -/
inductive EndpointType where
  | UDPServer
  | UDPClient
  | TCPServer
  | TCPClient
  | Serial
deriving DecidableEq, Repr

/-- Modelled from the spec: `mavlink_proxy.Endpoint.Endpoint` is not under
src/.  Field list follows spec section 3: name, owner tag, transport kind,
place (address or device), argument (port or baud), protected flag, persistent
flag.  Two endpoints are the same entity iff all fields match.  The Python
keyword-style field `protected` is spelled `protected_` because `protected` is
a Lean keyword. -/
structure Endpoint where
  name : String
  owner : String
  connection_type : EndpointType
  place : String
  argument : Nat
  protected_ : Bool
  persistent : Bool
deriving DecidableEq, Repr

/-- Platform enum from src/core/services/ardupilot_manager/typedefs.py
(the string payloads of the Python enum are not used by any claim). -/
inductive Platform where
  | Pixhawk1
  | Navigator
  | SITL
  | Undefined
deriving DecidableEq, Repr

/-- SITLFrame enum from src/core/services/ardupilot_manager/typedefs.py.
Constructor list is 1:1 with the Python enum members; the string payloads are
not used by any claim. -/
inductive SITLFrame where
  | QUADPLANE
  | XPLANE
  | FIREFLY
  | PLUS_CONFIG
  | QUAD
  | COPTER
  | X_CONFIG
  | BFXREV
  | BFX
  | DJIX
  | CWX
  | HEXA
  | HEXA_CWX
  | HEXA_DJI
  | OCTA
  | OCTA_CWX
  | OCTA_DJI
  | OCTA_QUAD_CWX
  | DODECA_HEXA
  | TRI
  | Y_SIX
  | HELI
  | HELI_DUAL
  | HELI_COMPOUND
  | SINGLECOPTER
  | COAXCOPTER
  | ROVER
  | BALANCEBOT
  | SAILBOAT
  | MOTORBOAT
  | CRRCSIM
  | JSBSIM
  | FLIGHTAXIS
  | GAZEBO
  | LAST_LETTER
  | TRACKER
  | BALLOON
  | PLANE
  | CALIBRATION
  | VECTORED
  | VECTORED_6DOF
  | SILENTWINGS
  | MORSE
  | AIRSIM
  | SCRIMMAGE
  | WEBOTS
  | JSON
  | UNDEFINED
deriving DecidableEq, Repr

/-! ## Endpoint registry

ArduPilotManager delegates the live endpoint set to `self.mavlink_manager`
(`mavlink_proxy.Manager`, not under src/).  Modelled from the spec, section 6:
the proxy holds a set of endpoints; `addEndpoint` / `removeEndpoint` /
`clearEndpoints` either perform the mutation or fail loudly, and
`endpoints()` returns the live set.  The live set is represented as a
duplicate-free `List Endpoint`; whether each proxy call raises is given by the
oracles of `ProxyEnv`. -/

/-- Failure oracles for the external collaborators used by the endpoint
registry paths: whether `mavlink_manager.add_endpoint e` raises in proxy state
`st`, whether `remove_endpoint` raises, whether `clear_endpoints` raises,
whether `settings.save` raises, and whether `mavlink_manager.restart`
raises. -/
structure ProxyEnv where
  addFails : Endpoint → List Endpoint → Bool
  removeFails : Endpoint → List Endpoint → Bool
  clearFails : List Endpoint → Bool
  saveFails : Bool
  restartFails : Bool

/-- Set-insertion on the proxy's endpoint list: adding an endpoint that is
already present leaves the set unchanged (the proxy holds a set). -/
def insertEndpoint (st : List Endpoint) (e : Endpoint) : List Endpoint :=
  if e ∈ st then st else st ++ [e]

/-- The for-loop shared by `add_new_endpoints` (ArduPilotManager.py lines
337-344) and the proxy's `add_endpoints`: registers each endpoint in turn and
stops at the first one whose registration raises.  Returns the proxy state
reached together with the first failing endpoint (`none` when every
registration succeeded).  The list argument is the iteration order of the
Python set. -/
def add_endpoints_loop (env : ProxyEnv) (st : List Endpoint) :
    List Endpoint → List Endpoint × Option Endpoint
  | [] => (st, none)
  | e :: es =>
    if env.addFails e st then (st, some e)
    else add_endpoints_loop env (insertEndpoint st e) es

/-- The for-loop of `remove_endpoints` (ArduPilotManager.py lines 356-363):
removes each endpoint in turn and stops at the first one whose removal
raises. -/
def remove_endpoints_loop (env : ProxyEnv) (st : List Endpoint) :
    List Endpoint → List Endpoint × Option Endpoint
  | [] => (st, none)
  | e :: es =>
    if env.removeFails e st then (st, some e)
    else remove_endpoints_loop env (st.erase e) es

/-- `ArduPilotManager._reset_endpoints` (lines 312-318): try to clear the
proxy and re-add the snapshot; any exception is caught and only logged, so the
function always returns a state.  If `clear_endpoints` raises the proxy state
is unchanged; if a re-add raises partway the partially re-added state
remains. -/
def reset_endpoints (env : ProxyEnv) (st snapshot : List Endpoint) :
    List Endpoint :=
  if env.clearFails st then st
  else (add_endpoints_loop env [] snapshot).1

/-- Registry-side state of the manager: the proxy's live endpoint set
(`mavlink_manager`), the in-memory `self.configuration["endpoints"]` list, the
endpoints of the last successfully saved settings document, whether the proxy
was restarted/reloaded, the master endpoint handed to the proxy and whether
the proxy was started. -/
structure RegistryState where
  mav : List Endpoint
  configEndpoints : List Endpoint
  savedEndpoints : Option (List Endpoint)
  proxyRestarted : Bool
  master_endpoint : Option Endpoint
  mavlink_started : Bool
deriving DecidableEq, Repr

/-- `ArduPilotManager.reload_endpoints` (lines 320-327): filter the live set
down to its persistent members, write them into the in-memory configuration,
save the settings and restart the proxy; any exception anywhere in the block
is caught and only logged.  Writing the in-memory configuration cannot raise;
`settings.save` raises iff `env.saveFails`; `mavlink_manager.restart` raises
iff `env.restartFails`. -/
def reload_endpoints (env : ProxyEnv) (s : RegistryState) : RegistryState :=
  let persistent := s.mav.filter (fun e => e.persistent)
  let s1 := { s with configEndpoints := persistent }
  if env.saveFails then s1
  else
    let s2 := { s1 with savedEndpoints := some persistent }
    if env.restartFails then s2
    else { s2 with proxyRestarted := true }

/-- `ArduPilotManager.add_new_endpoints` (lines 333-346): snapshot the live
set, register each new endpoint, and on the first failure reset the proxy to
the snapshot and re-raise the error (returned as `some e`); on full success
run `reload_endpoints`.  The returned state is the manager state observable by
the caller in either case. -/
def add_new_endpoints (env : ProxyEnv) (s : RegistryState)
    (new_endpoints : List Endpoint) : RegistryState × Option Endpoint :=
  let loaded_endpoints := s.mav
  match add_endpoints_loop env s.mav new_endpoints with
  | (st, some e) =>
    ({ s with mav := reset_endpoints env st loaded_endpoints }, some e)
  | (st, none) => (reload_endpoints env { s with mav := st }, none)

/-- The two ways `remove_endpoints` can raise: the up-front `ValueError`
naming the protected members of the request, or a proxy removal failure
(re-raised after rollback). -/
inductive RemoveError where
  | protectedViolation (eps : List Endpoint)
  | removalFailed (e : Endpoint)
deriving DecidableEq, Repr

/-- `ArduPilotManager.remove_endpoints` (lines 348-365): snapshot the live
set; raise `ValueError` listing the protected members of the request before
touching the proxy if there are any; otherwise remove each endpoint, rolling
back to the snapshot and re-raising on the first failure; on full success run
`reload_endpoints`. -/
def remove_endpoints (env : ProxyEnv) (s : RegistryState)
    (endpoints_to_remove : List Endpoint) : RegistryState × Option RemoveError :=
  let loaded_endpoints := s.mav
  let protected_endpoints := endpoints_to_remove.filter (fun e => e.protected_)
  if protected_endpoints.isEmpty then
    match remove_endpoints_loop env s.mav endpoints_to_remove with
    | (st, some e) =>
      ({ s with mav := reset_endpoints env st loaded_endpoints },
        some (RemoveError.removalFailed e))
    | (st, none) => (reload_endpoints env { s with mav := st }, none)
  else (s, some (RemoveError.protectedViolation protected_endpoints))

/-- The "GCS Link" default endpoint built by `start_mavlink_manager`
(ArduPilotManager.py lines 185-193); `persistent` defaults to false in the
collaborator's constructor (modelled from the spec). -/
def gcs_link_endpoint (app_name : String) : Endpoint :=
  { name := "GCS Link", owner := app_name,
    connection_type := EndpointType.UDPServer, place := "0.0.0.0",
    argument := 14550, protected_ := true, persistent := false }

/-- The "MAVLink2Rest" default endpoint built by `start_mavlink_manager`
(ArduPilotManager.py lines 195-205). -/
def mavlink2rest_endpoint (app_name : String) : Endpoint :=
  { name := "MAVLink2Rest", owner := app_name,
    connection_type := EndpointType.UDPClient, place := "127.0.0.1",
    argument := 14000, protected_ := true, persistent := false }

/-- `ArduPilotManager.start_mavlink_manager` (lines 181-210): inside one try
block, add the GCS Link endpoint and then the MAVLink2Rest endpoint (the
second call is not reached if the first raises); any exception from the block
is caught and only logged.  Afterwards, unconditionally set the master
endpoint on the proxy and start it. -/
def start_mavlink_manager (env : ProxyEnv) (app_name : String)
    (s : RegistryState) (device : Endpoint) : RegistryState :=
  let s1 :=
    match add_new_endpoints env s [gcs_link_endpoint app_name] with
    | (s', some _) => s'
    | (s', none) =>
      (add_new_endpoints env s' [mavlink2rest_endpoint app_name]).1
  { s1 with master_endpoint := some device, mavlink_started := true }

/-! ## Process supervisor

The supervisor-side state of the manager.  The tracked subprocess handle is
modelled as `Option (Nat → Bool)`: `none` is Python's `self.subprocess is
None`; `some polls` is a held handle whose n-th `poll()` call during the
operation under study returns a non-None exit status iff `polls n = true`.
`matching_processes` is the length of `running_ardupilot_processes()`, the
system-wide scan for processes whose command line contains the current
platform's firmware path. -/
structure SupervisorState where
  should_be_running : Bool
  current_platform : Platform
  current_sitl_frame : SITLFrame
  subprocess : Option (Nat → Bool)
  matching_processes : Nat
  mavlink_running : Bool

/-- Outcome of `terminate_ardupilot_subprocess`: no handle held (warning
logged, normal return), process observed dead at the given poll index, or the
10-attempt deadline expired and `ArdupilotProcessKillFail` was raised. -/
inductive TerminateOutcome where
  | alreadyNotRunning
  | terminated (pollIndex : Nat)
  | killFail
deriving DecidableEq, Repr

/-- The wait loop of `terminate_ardupilot_subprocess` (ArduPilotManager.py
lines 246-252): up to `fuel` polls starting at poll index `i`; each failed
poll is followed by one 0.5 time-unit sleep.  Returns the outcome and the
number of sleeps performed. -/
def terminate_wait (polls : Nat → Bool) : Nat → Nat → TerminateOutcome × Nat
  | 0, _ => (TerminateOutcome.killFail, 0)
  | fuel + 1, i =>
    if polls i then (TerminateOutcome.terminated i, 0)
    else
      let r := terminate_wait polls fuel (i + 1)
      (r.1, r.2 + 1)

/-- `ArduPilotManager.terminate_ardupilot_subprocess` (lines 242-253): if a
handle is held, send the termination signal and run the 10-attempt wait loop;
otherwise log a warning and return normally.  Returns the outcome and the
number of 0.5 time-unit sleeps performed. -/
def terminate_ardupilot_subprocess :
    Option (Nat → Bool) → TerminateOutcome × Nat
  | some polls => terminate_wait polls 10 0
  | none => (TerminateOutcome.alreadyNotRunning, 0)

/-- The same method seen as a state transformer: the method body assigns no
field of the manager, so the state component of the result is the input
state unchanged. -/
def terminate_ardupilot_subprocess_method (s : SupervisorState) :
    SupervisorState × TerminateOutcome × Nat :=
  (s, terminate_ardupilot_subprocess s.subprocess)

/-- Line 54 of ArduPilotManager.py: `self.subprocess is not None and
self.subprocess.poll() is not None` (a single poll of the tracked handle). -/
def subprocess_stopped (s : SupervisorState) : Bool :=
  match s.subprocess with
  | none => false
  | some polls => polls 0

/-- Lines 55-59 of ArduPilotManager.py: the restart condition of the
auto-restart loop. -/
def needs_restart (s : SupervisorState) : Bool :=
  s.should_be_running
    && (decide (s.current_platform = Platform.SITL)
        || decide (s.current_platform = Platform.Navigator))
    && (decide (s.matching_processes = 0) || subprocess_stopped s)

/-- What one pass of the auto-restart loop body does: sleep 5 time-units
without restarting, invoke `start_ardupilot` (which succeeded) and then
sleep, or invoke `start_ardupilot` which raised — the loop body has no
exception handler, so the exception leaves the loop. -/
inductive IterationResult where
  | sleptWithoutRestart
  | restartedAndSlept
  | raisedOutOfLoop
deriving DecidableEq, Repr

/-- One pass of the body of `ArduPilotManager.auto_restart` (lines 53-63):
if `needs_restart` holds, call `self.start_ardupilot()` — `start_raises`
says whether that call raises this time — then sleep 5 time-units.  There is
no try/except in the loop, so a raising start leaves the loop as
`raisedOutOfLoop`. -/
def auto_restart_body (s : SupervisorState) (start_raises : Bool) :
    IterationResult :=
  if needs_restart s then
    if start_raises then IterationResult.raisedOutOfLoop
    else IterationResult.restartedAndSlept
  else IterationResult.sleptWithoutRestart

/-- Observable steps of the kill/restart paths, in program order. -/
inductive KillEvent where
  | set_should_be_running_false
  | disarm_vehicle
  | terminate_subprocess
  | prune_processes
  | stop_mavlink
  | start_begin
deriving DecidableEq, Repr

/-- Failure oracles for the collaborator calls made by `kill_ardupilot`:
whether `vehicle_manager.disarm_vehicle()` raises and whether some
`process.kill()` inside `prune_ardupilot_processes` raises
(`ArdupilotProcessKillFail`). -/
structure KillEnv where
  disarmFails : Bool
  pruneFails : Bool

/-- The tail of `kill_ardupilot` after the disarm step (ArduPilotManager.py
lines 275-284): terminate the tracked subprocess (raising
`ArdupilotProcessKillFail` on deadline expiry), prune every system process
matching the firmware path (raising on a failed kill; on success no matching
process remains), then stop the mavlink manager.  Returns the state, the
event trace in execution order appended to `tr`, and whether an exception
propagated to the caller. -/
def kill_after_disarm (env : KillEnv) (s : SupervisorState)
    (tr : List KillEvent) : SupervisorState × List KillEvent × Bool :=
  if (terminate_ardupilot_subprocess s.subprocess).1 = TerminateOutcome.killFail
  then (s, tr ++ [KillEvent.terminate_subprocess], true)
  else if env.pruneFails then
    (s, tr ++ [KillEvent.terminate_subprocess, KillEvent.prune_processes], true)
  else
    ({ s with matching_processes := 0, mavlink_running := false },
      tr ++ [KillEvent.terminate_subprocess, KillEvent.prune_processes,
        KillEvent.stop_mavlink], false)

/-- `ArduPilotManager.kill_ardupilot` (lines 265-284): set
`should_be_running = False` first; disarm the vehicle unless the platform is
SITL (a raising disarm propagates); then terminate, prune and stop the
mavlink manager. -/
def kill_ardupilot (env : KillEnv) (s : SupervisorState) :
    SupervisorState × List KillEvent × Bool :=
  if s.current_platform = Platform.SITL then
    kill_after_disarm env { s with should_be_running := false }
      [KillEvent.set_should_be_running_false]
  else if env.disarmFails then
    ({ s with should_be_running := false },
      [KillEvent.set_should_be_running_false], true)
  else
    kill_after_disarm env { s with should_be_running := false }
      [KillEvent.set_should_be_running_false, KillEvent.disarm_vehicle]

/-- `ArduPilotManager.restart_ardupilot` (lines 294-296): run
`kill_ardupilot` to completion; if it raised, the exception propagates and
the start phase never begins; otherwise the start phase begins
(`start_begin`). -/
def restart_ardupilot (env : KillEnv) (s : SupervisorState) :
    SupervisorState × List KillEvent × Bool :=
  match kill_ardupilot env s with
  | (s1, tr, true) => (s1, tr, true)
  | (s1, tr, false) => (s1, tr ++ [KillEvent.start_begin], false)

/-! ## Platform orchestrator -/

/-- Modelled from the spec: the flight-controller type enum delivered by the
board detector (`flight_controller_detector.Detector.FlightControllerType`)
is not under src/, so its member set is taken from what the sources
evidence: `Navigator` and `Serial` are the members referenced by
`start_board`'s dispatch (ArduPilotManager.py lines 225 and 228), and
`NavigatorR3` / `NavigatorR4` are the further flight-controller types listed
by src typedefs.py (which that dispatch does not recognize).  Priority
values: `Serial = 1` as in typedefs.py; the remaining numbers keep
typedefs.py's relative order with `Navigator` inserted, and no theorem
depends on the specific numbers beyond "lowest value wins". -/
inductive FlightControllerType where
  | Serial
  | Navigator
  | NavigatorR3
  | NavigatorR4
deriving DecidableEq, Repr

/-- The IntEnum priority value used as the sort key in `start_board`
(`boards.sort(key=lambda tup: tup[0].value)`). -/
def FlightControllerType.value : FlightControllerType → Nat
  | FlightControllerType.Serial => 1
  | FlightControllerType.Navigator => 2
  | FlightControllerType.NavigatorR3 => 3
  | FlightControllerType.NavigatorR4 => 4

/-- Which startup procedure `start_board` dispatches to for the winning
board. -/
inductive BoardAction where
  | navigator
  | serial (place : String)
deriving DecidableEq, Repr

/-- How a `start_board` call ends: returning False (no board detected),
returning True after running exactly one startup procedure, or raising the
`RuntimeError("Invalid board type")` of line 231. -/
inductive StartBoardOutcome where
  | noBoard
  | started (act : BoardAction)
  | invalidBoardError
deriving DecidableEq, Repr

/-- The dispatch of `start_board` (ArduPilotManager.py lines 225-231) on the
winning board: if the board type is the `Navigator` member, run
`start_navigator` and return True; if it is `Serial`, run
`start_serial(place)` and return True; any other board type raises
`RuntimeError("Invalid board type")`. -/
def dispatch_board : FlightControllerType → String → StartBoardOutcome
  | FlightControllerType.Navigator, _ => StartBoardOutcome.started BoardAction.navigator
  | FlightControllerType.Serial, place => StartBoardOutcome.started (BoardAction.serial place)
  | _, _ => StartBoardOutcome.invalidBoardError

/-- Stable ascending insertion by board-type priority value: the embedding of
Python's stable `boards.sort(key=lambda tup: tup[0].value)`. -/
def insertBoard (b : FlightControllerType × String) :
    List (FlightControllerType × String) → List (FlightControllerType × String)
  | [] => [b]
  | c :: cs =>
    if b.1.value ≤ c.1.value then b :: c :: cs else c :: insertBoard b cs

/-- Stable sort of the detected boards by priority value, ascending. -/
def sortBoards (boards : List (FlightControllerType × String)) :
    List (FlightControllerType × String) :=
  boards.foldr insertBoard []

/-- Result of `start_board`: how the call ended and whether the
more-than-one-board warning was logged. -/
structure StartBoardResult where
  outcome : StartBoardOutcome
  warnedMultiple : Bool
deriving DecidableEq, Repr

/-- `ArduPilotManager.start_board` (lines 212-231): empty list returns
False; with more than one candidate a warning (not an error) is logged; the
list is sorted by board-type priority value ascending and the first entry of
the sorted list wins; the winner's board type selects the outcome
(`dispatch_board`). -/
def start_board (boards : List (FlightControllerType × String)) :
    StartBoardResult :=
  if boards.isEmpty then
    { outcome := StartBoardOutcome.noBoard, warnedMultiple := false }
  else
    let warned := decide (1 < boards.length)
    match (sortBoards boards).head? with
    | none => { outcome := StartBoardOutcome.noBoard, warnedMultiple := warned }
    | some (t, place) =>
      { outcome := dispatch_board t place, warnedMultiple := warned }

/-- The state written by `run_with_sitl` that the frame-defaulting claim
observes: the platform and SITL frame recorded on the manager and whether
the undefined-frame warning was logged. -/
structure SITLStartResult where
  current_platform : Platform
  current_sitl_frame : SITLFrame
  warned_undefined_frame : Bool
deriving DecidableEq, Repr

/-- The platform/frame part of `ArduPilotManager.run_with_sitl` (lines
142-149): set the current platform to SITL; if the requested frame is
UNDEFINED substitute VECTORED and log a warning; record the effective frame
as the current SITL frame. -/
def run_with_sitl (frame : SITLFrame) : SITLStartResult :=
  if frame = SITLFrame.UNDEFINED then
    { current_platform := Platform.SITL,
      current_sitl_frame := SITLFrame.VECTORED,
      warned_undefined_frame := true }
  else
    { current_platform := Platform.SITL, current_sitl_frame := frame,
      warned_undefined_frame := false }

/-! ## Registry lemmas -/

/-- The endpoint blamed by the add loop is one of the endpoints it was asked
to add. -/
theorem add_endpoints_loop_error_mem (env : ProxyEnv) :
    ∀ (l st : List Endpoint) (e : Endpoint),
      (add_endpoints_loop env st l).2 = some e → e ∈ l := by
  intro l
  induction l with
  | nil => intro st e h; simp [add_endpoints_loop] at h
  | cons x xs ih =>
    intro st e h
    rw [add_endpoints_loop] at h
    cases hf : env.addFails x st with
    | true =>
      rw [hf] at h
      simp at h
      exact h ▸ List.mem_cons_self x xs
    | false =>
      rw [hf] at h
      simp at h
      exact List.mem_cons_of_mem x (ih _ e h)

/-- When no registration fails and the elements are fresh, the add loop
appends exactly the requested endpoints and reports no error. -/
theorem add_endpoints_loop_all_ok (env : ProxyEnv) :
    ∀ (l acc : List Endpoint), (acc ++ l).Nodup →
      (∀ e st, e ∈ l → env.addFails e st = false) →
      add_endpoints_loop env acc l = (acc ++ l, none) := by
  intro l
  induction l with
  | nil => intro acc _ _; simp [add_endpoints_loop]
  | cons x xs ih =>
    intro acc hnd hok
    have hf : env.addFails x acc = false := hok x acc (List.mem_cons_self x xs)
    have hx : x ∉ acc := by
      intro hmem
      rcases List.nodup_append.mp hnd with ⟨_, _, hdisj⟩
      exact hdisj hmem (List.mem_cons_self x xs)
    rw [add_endpoints_loop, hf]
    simp only [Bool.false_eq_true, if_false]
    rw [insertEndpoint, if_neg hx]
    have hnd' : ((acc ++ [x]) ++ xs).Nodup := by
      simpa [List.append_assoc] using hnd
    have hres := ih (acc ++ [x]) hnd'
      (fun e st he => hok e st (List.mem_cons_of_mem x he))
    simpa [List.append_assoc] using hres

/-- When the proxy's clear and the re-adds of the snapshot succeed (the
collaborator contract the registry relies on), `_reset_endpoints` restores
exactly the snapshot. -/
theorem reset_endpoints_restores (env : ProxyEnv) (st snapshot : List Endpoint)
    (hnd : snapshot.Nodup)
    (hclear : ∀ s, env.clearFails s = false)
    (hok : ∀ e s, e ∈ snapshot → env.addFails e s = false) :
    reset_endpoints env st snapshot = snapshot := by
  rw [reset_endpoints, hclear st]
  simp only [Bool.false_eq_true, if_false]
  rw [add_endpoints_loop_all_ok env snapshot [] (by simpa using hnd) hok]
  simp

/-- C1: `add_new_endpoints` aborts at the first failing registration, resets
the proxy to the pre-call snapshot (so no partial application of the new
endpoints is observable) and re-raises the triggering error; on full success
the persistent subset is saved to the settings and the proxy is restarted.
The hypotheses are the collaborator contract of spec section 6: the rollback's
clear and re-adds of the (duplicate-free) snapshot do not themselves fail. -/
theorem add_new_endpoints_rollback_or_commit
    (env : ProxyEnv) (s : RegistryState) (new_endpoints : List Endpoint)
    (hnd : s.mav.Nodup)
    (hclear : ∀ st, env.clearFails st = false)
    (hreadd : ∀ e st, e ∈ s.mav → env.addFails e st = false) :
    (∀ e, (add_new_endpoints env s new_endpoints).2 = some e →
        e ∈ new_endpoints
        ∧ (add_new_endpoints env s new_endpoints).1.mav = s.mav)
    ∧ ((add_new_endpoints env s new_endpoints).2 = none →
        env.saveFails = false → env.restartFails = false →
        (add_new_endpoints env s new_endpoints).1.savedEndpoints =
          some ((add_new_endpoints env s new_endpoints).1.mav.filter
            (fun e => e.persistent))
        ∧ (add_new_endpoints env s new_endpoints).1.proxyRestarted = true) := by
  rcases hl : add_endpoints_loop env s.mav new_endpoints with ⟨st, oe⟩
  cases oe with
  | some e0 =>
    constructor
    · intro e he
      have h2 : (add_new_endpoints env s new_endpoints).2 = some e0 := by
        simp [add_new_endpoints, hl]
      rw [h2] at he
      have he0 : e = e0 := by injection he.symm
      subst he0
      refine ⟨add_endpoints_loop_error_mem env new_endpoints s.mav e (by rw [hl]), ?_⟩
      simp [add_new_endpoints, hl, reset_endpoints_restores env st s.mav hnd hclear hreadd]
    · intro hnone
      exfalso
      simp [add_new_endpoints, hl] at hnone
  | none =>
    constructor
    · intro e he
      exfalso
      simp [add_new_endpoints, hl] at he
    · intro _ hsave hrestart
      simp [add_new_endpoints, hl, reload_endpoints, hsave, hrestart]

/-- The concrete pre-existing endpoint used by the registry witnesses. -/
def epA : Endpoint :=
  { name := "A", owner := "owner", connection_type := EndpointType.UDPServer,
    place := "0.0.0.0", argument := 14550, protected_ := false,
    persistent := true }

/-- A concrete endpoint whose registration the oracle rejects. -/
def epBad : Endpoint :=
  { name := "Bad", owner := "owner", connection_type := EndpointType.UDPClient,
    place := "1.2.3.4", argument := 9000, protected_ := false,
    persistent := false }

/-- A concrete protected endpoint. -/
def epProt : Endpoint :=
  { name := "GCS", owner := "app", connection_type := EndpointType.UDPServer,
    place := "0.0.0.0", argument := 14550, protected_ := true,
    persistent := false }

/-- Oracle environment in which every collaborator call succeeds. -/
def envAllOk : ProxyEnv :=
  { addFails := fun _ _ => false, removeFails := fun _ _ => false,
    clearFails := fun _ => false, saveFails := false, restartFails := false }

/-- Oracle environment in which only registrations of the endpoint named
"Bad" fail. -/
def envBadAdd : ProxyEnv :=
  { addFails := fun e _ => e.name == "Bad", removeFails := fun _ _ => false,
    clearFails := fun _ => false, saveFails := false, restartFails := false }

/-- A concrete registry state already holding `epA`. -/
def stateA : RegistryState :=
  { mav := [epA], configEndpoints := [], savedEndpoints := none,
    proxyRestarted := false, master_endpoint := none,
    mavlink_started := false }

theorem add_new_endpoints_rollback_or_commit_witness :
    (add_new_endpoints envBadAdd stateA [epBad]).2 = some epBad
    ∧ (add_new_endpoints envBadAdd stateA [epBad]).1.mav = stateA.mav := by
  have h := add_new_endpoints_rollback_or_commit envBadAdd stateA [epBad]
    (by decide) (fun _ => rfl)
    (fun e st he => by
      have he' : e = epA := by simpa [stateA] using he
      subst he'
      rfl)
  have hfail : (add_new_endpoints envBadAdd stateA [epBad]).2 = some epBad := by
    decide
  exact ⟨hfail, (h.1 epBad hfail).2⟩

/-- C2: when the removal request contains a protected endpoint,
`remove_endpoints` raises the `ValueError` naming the protected members of
the request before any mutation is attempted, and the manager state — in
particular the live endpoint set returned by `get_endpoints()` — is
unchanged. -/
theorem remove_endpoints_protected_rejected
    (env : ProxyEnv) (s : RegistryState) (endpoints_to_remove : List Endpoint)
    (h : ∃ e ∈ endpoints_to_remove, e.protected_ = true) :
    remove_endpoints env s endpoints_to_remove =
      (s, some (RemoveError.protectedViolation
        (endpoints_to_remove.filter (fun e => e.protected_)))) := by
  rcases h with ⟨e, hmem, hprot⟩
  have hmemf : e ∈ endpoints_to_remove.filter (fun e => e.protected_) :=
    List.mem_filter.mpr ⟨hmem, by simp [hprot]⟩
  have hne : (endpoints_to_remove.filter (fun e => e.protected_)).isEmpty = false := by
    cases hemp : (endpoints_to_remove.filter (fun e => e.protected_)).isEmpty with
    | true =>
      exfalso
      rw [List.isEmpty_iff] at hemp
      rw [hemp] at hmemf
      exact (List.not_mem_nil e) hmemf
    | false => rfl
  rw [remove_endpoints]
  simp only [hne, Bool.false_eq_true, if_false]

theorem remove_endpoints_protected_rejected_witness :
    remove_endpoints envAllOk stateA [epProt] =
      (stateA, some (RemoveError.protectedViolation [epProt])) := by
  have h := remove_endpoints_protected_rejected envAllOk stateA [epProt]
    ⟨epProt, List.mem_cons_self _ _, rfl⟩
  have hfil : [epProt].filter (fun e => e.protected_) = [epProt] := by decide
  rw [hfil] at h
  exact h

/-! ## Reload-failure independence -/

theorem add_endpoints_loop_congr (env env' : ProxyEnv)
    (h : env'.addFails = env.addFails) :
    ∀ (l st : List Endpoint),
      add_endpoints_loop env' st l = add_endpoints_loop env st l := by
  intro l
  induction l with
  | nil => intro st; rfl
  | cons x xs ih =>
    intro st
    rw [add_endpoints_loop, add_endpoints_loop, h, ih (insertEndpoint st x)]

theorem remove_endpoints_loop_congr (env env' : ProxyEnv)
    (h : env'.removeFails = env.removeFails) :
    ∀ (l st : List Endpoint),
      remove_endpoints_loop env' st l = remove_endpoints_loop env st l := by
  intro l
  induction l with
  | nil => intro st; rfl
  | cons x xs ih =>
    intro st
    rw [remove_endpoints_loop, remove_endpoints_loop, h, ih (st.erase x)]

/-- C7: whether an add/remove call raises (and which error it raises) does
not depend on the save and proxy-restart failure oracles: a failure of the
persist-and-reload step after a successful mutation is logged and swallowed,
so the call still returns successfully. -/
theorem mutation_result_independent_of_reload_failures
    (env env' : ProxyEnv) (s : RegistryState)
    (new_endpoints endpoints_to_remove : List Endpoint)
    (hadd : env'.addFails = env.addFails)
    (hrem : env'.removeFails = env.removeFails)
    (hclear : env'.clearFails = env.clearFails) :
    (add_new_endpoints env' s new_endpoints).2 =
        (add_new_endpoints env s new_endpoints).2
    ∧ (remove_endpoints env' s endpoints_to_remove).2 =
        (remove_endpoints env s endpoints_to_remove).2 := by
  constructor
  · rw [add_new_endpoints, add_new_endpoints,
      add_endpoints_loop_congr env env' hadd]
    rcases hl : add_endpoints_loop env s.mav new_endpoints with ⟨st, oe⟩
    cases oe <;> rfl
  · rw [remove_endpoints, remove_endpoints,
      remove_endpoints_loop_congr env env' hrem]
    rcases hl : remove_endpoints_loop env s.mav endpoints_to_remove with ⟨st, oe⟩
    by_cases hp :
        (endpoints_to_remove.filter (fun e => e.protected_)).isEmpty = true
    · simp only [hp, if_true]
      cases oe <;> rfl
    · simp [hp]

/-- Oracle environment in which the persist-and-reload collaborators fail but
the mutation collaborators succeed. -/
def envReloadFails : ProxyEnv :=
  { addFails := fun _ _ => false, removeFails := fun _ _ => false,
    clearFails := fun _ => false, saveFails := true, restartFails := true }

theorem mutation_result_independent_of_reload_failures_witness :
    (add_new_endpoints envReloadFails stateA [epBad]).2 =
        (add_new_endpoints envAllOk stateA [epBad]).2
    ∧ (remove_endpoints envReloadFails stateA [epA]).2 =
        (remove_endpoints envAllOk stateA [epA]).2 := by
  have h := mutation_result_independent_of_reload_failures envAllOk
    envReloadFails stateA [epBad] [epA] rfl rfl rfl
  exact h

/-! ## Auto-restart loop -/

/-- C3: one pass of the auto-restart loop invokes `start_ardupilot` exactly
when `should_be_running` is true, the current platform is SITL or Navigator,
and no matching system process exists or the tracked subprocess handle has
exited; in particular it never invokes a start on the Pixhawk1 or Undefined
platforms and never when `should_be_running` is false, regardless of process
state. -/
theorem auto_restart_trigger_iff (s : SupervisorState) (start_raises : Bool) :
    (auto_restart_body s start_raises ≠ IterationResult.sleptWithoutRestart ↔
      s.should_be_running = true
      ∧ (s.current_platform = Platform.SITL
         ∨ s.current_platform = Platform.Navigator)
      ∧ (s.matching_processes = 0
         ∨ ∃ polls, s.subprocess = some polls ∧ polls 0 = true))
    ∧ ((s.current_platform = Platform.Pixhawk1
        ∨ s.current_platform = Platform.Undefined) →
        auto_restart_body s start_raises = IterationResult.sleptWithoutRestart)
    ∧ (s.should_be_running = false →
        auto_restart_body s start_raises = IterationResult.sleptWithoutRestart) := by
  have hstop : subprocess_stopped s = true ↔
      ∃ polls, s.subprocess = some polls ∧ polls 0 = true := by
    cases hs : s.subprocess with
    | none => simp [subprocess_stopped, hs]
    | some polls => simp [subprocess_stopped, hs]
  have hneeds : needs_restart s = true ↔
      s.should_be_running = true
      ∧ (s.current_platform = Platform.SITL
         ∨ s.current_platform = Platform.Navigator)
      ∧ (s.matching_processes = 0
         ∨ ∃ polls, s.subprocess = some polls ∧ polls 0 = true) := by
    rw [needs_restart]
    simp [Bool.and_eq_true, Bool.or_eq_true, decide_eq_true_eq, hstop,
      and_assoc]
  have hbody : auto_restart_body s start_raises ≠ IterationResult.sleptWithoutRestart
      ↔ needs_restart s = true := by
    rw [auto_restart_body]
    cases hn : needs_restart s with
    | true => cases start_raises <;> simp
    | false => simp
  refine ⟨hbody.trans hneeds, ?_, ?_⟩
  · intro hplat
    by_contra hne
    rcases ((hbody.trans hneeds).mp hne).2.1 with h | h <;>
      rcases hplat with hp | hp <;> rw [hp] at h <;> exact absurd h (by decide)
  · intro hsb
    by_contra hne
    have h1 := ((hbody.trans hneeds).mp hne).1
    rw [hsb] at h1
    exact absurd h1 (by decide)

/-- A concrete supervisor state in which a restart is due: SITL platform,
supposed to be running, no tracked handle and no matching process. -/
def sRestart : SupervisorState :=
  { should_be_running := true, current_platform := Platform.SITL,
    current_sitl_frame := SITLFrame.VECTORED, subprocess := none,
    matching_processes := 0, mavlink_running := false }

/-- A concrete supervisor state on a serial board after an explicit stop. -/
def sIdle : SupervisorState :=
  { should_be_running := false, current_platform := Platform.Pixhawk1,
    current_sitl_frame := SITLFrame.UNDEFINED, subprocess := none,
    matching_processes := 0, mavlink_running := false }

theorem auto_restart_trigger_iff_witness :
    auto_restart_body sRestart false ≠ IterationResult.sleptWithoutRestart
    ∧ auto_restart_body sIdle true = IterationResult.sleptWithoutRestart := by
  constructor
  · exact (auto_restart_trigger_iff sRestart false).1.mpr
      ⟨rfl, Or.inl rfl, Or.inl rfl⟩
  · exact (auto_restart_trigger_iff sIdle true).2.2 rfl

/-- C6 counterexample: in a state where a restart is due, a raising
`start_ardupilot` makes the iteration end as `raisedOutOfLoop` — the
exception propagates out of the loop body (there is no try/except around
line 62 of ArduPilotManager.py), so the loop does not log-and-retry. -/
theorem auto_restart_failure_escapes_cex :
    auto_restart_body sRestart true = IterationResult.raisedOutOfLoop := by
  rfl

/-- C6 (amended): the auto-restart loop body does not catch failures of the
start sequence: an iteration propagates an exception out of the loop exactly
when a restart was triggered and `start_ardupilot` raised; otherwise the body
completes and the loop sleeps 5 time-units and continues. -/
theorem auto_restart_failure_propagation (s : SupervisorState)
    (start_raises : Bool) :
    auto_restart_body s start_raises = IterationResult.raisedOutOfLoop ↔
      needs_restart s = true ∧ start_raises = true := by
  rw [auto_restart_body]
  cases hn : needs_restart s <;> cases start_raises <;> simp

theorem auto_restart_failure_propagation_witness :
    auto_restart_body sIdle true ≠ IterationResult.raisedOutOfLoop := by
  intro h
  have := (auto_restart_failure_propagation sIdle true).mp h
  exact absurd this.1 (by decide)

/-! ## Subprocess termination -/

/-- The wait loop returns as soon as a poll reports the process dead: if the
first successful poll (counting from index `i`) is the k-th one and within
the remaining fuel, the loop returns `terminated` there after k sleeps. -/
theorem terminate_wait_success (polls : Nat → Bool) :
    ∀ (fuel i k : Nat), k < fuel → polls (i + k) = true →
      (∀ j, j < k → polls (i + j) = false) →
      terminate_wait polls fuel i = (TerminateOutcome.terminated (i + k), k) := by
  intro fuel
  induction fuel with
  | zero => intro i k hk; exact absurd hk (Nat.not_lt_zero k)
  | succ fuel ih =>
    intro i k hk hpk hprev
    cases k with
    | zero =>
      have h0 : polls i = true := by simpa using hpk
      rw [terminate_wait, h0]
      simp
    | succ k' =>
      have h0 : polls i = false := by simpa using hprev 0 (Nat.succ_pos k')
      rw [terminate_wait, h0]
      simp only [Bool.false_eq_true, if_false]
      have harith : i + 1 + k' = i + (k' + 1) := by omega
      have hrec := ih (i + 1) k' (Nat.lt_of_succ_lt_succ hk)
        (by rw [harith]; exact hpk)
        (fun j hj => by
          have := hprev (j + 1) (Nat.succ_lt_succ hj)
          have harith2 : i + 1 + j = i + (j + 1) := by omega
          rw [harith2]
          exact this)
      rw [hrec, harith]

/-- When no poll within the fuel reports the process dead, the loop exhausts
its attempts, sleeping once per attempt, and the deadline failure is
raised. -/
theorem terminate_wait_timeout (polls : Nat → Bool) :
    ∀ (fuel i : Nat), (∀ j, j < fuel → polls (i + j) = false) →
      terminate_wait polls fuel i = (TerminateOutcome.killFail, fuel) := by
  intro fuel
  induction fuel with
  | zero => intro i _; rfl
  | succ fuel ih =>
    intro i h
    have h0 : polls i = false := by simpa using h 0 (Nat.succ_pos fuel)
    rw [terminate_wait, h0]
    simp only [Bool.false_eq_true, if_false]
    rw [ih (i + 1) (fun j hj => by
      have := h (j + 1) (Nat.succ_lt_succ hj)
      have harith : i + 1 + j = i + (j + 1) := by omega
      rw [harith]
      exact this)]

/-- C5: with no subprocess handle held, `terminate_ardupilot_subprocess`
returns normally (only a warning is logged) and changes no state; with a
handle held it polls up to 10 times at 0.5 time-unit intervals, returns as
soon as a poll reports the process exited (the poll index also counts the
0.5 time-unit sleeps performed), and raises `ArdupilotProcessKillFail` after
10 exitless polls (10 sleeps, 5 time-units). -/
theorem terminate_subprocess_spec (s : SupervisorState) (polls : Nat → Bool) :
    (s.subprocess = none →
      terminate_ardupilot_subprocess_method s =
        (s, TerminateOutcome.alreadyNotRunning, 0))
    ∧ (∀ k, k < 10 → polls k = true → (∀ j, j < k → polls j = false) →
        terminate_ardupilot_subprocess (some polls) =
          (TerminateOutcome.terminated k, k))
    ∧ ((∀ j, j < 10 → polls j = false) →
        terminate_ardupilot_subprocess (some polls) =
          (TerminateOutcome.killFail, 10)) := by
  refine ⟨?_, ?_, ?_⟩
  · intro h
    rw [terminate_ardupilot_subprocess_method, h]
    rfl
  · intro k hk hpk hprev
    rw [terminate_ardupilot_subprocess]
    have := terminate_wait_success polls 10 0 k hk (by simpa using hpk)
      (fun j hj => by simpa using hprev j hj)
    simpa using this
  · intro h
    rw [terminate_ardupilot_subprocess]
    exact terminate_wait_timeout polls 10 0 (fun j hj => by simpa using h j hj)

theorem terminate_subprocess_spec_witness :
    terminate_ardupilot_subprocess_method sIdle =
      (sIdle, TerminateOutcome.alreadyNotRunning, 0)
    ∧ terminate_ardupilot_subprocess (some (fun n => decide (n = 3))) =
      (TerminateOutcome.terminated 3, 3)
    ∧ terminate_ardupilot_subprocess (some (fun _ => false)) =
      (TerminateOutcome.killFail, 10) := by
  refine ⟨(terminate_subprocess_spec sIdle (fun _ => false)).1 rfl,
    (terminate_subprocess_spec sIdle (fun n => decide (n = 3))).2.1 3
      (by decide) (by decide) ?_,
    (terminate_subprocess_spec sIdle (fun _ => false)).2.2 ?_⟩
  · intro j hj
    have hne : j ≠ 3 := by omega
    simp [hne]
  · intro j _
    rfl

/-! ## Kill and restart ordering -/

/-- The three possible results of the terminate-prune-stop tail of the kill
path: deadline failure on terminate, prune failure, or full success with no
matching process left. -/
theorem kill_after_disarm_spec (env : KillEnv) (s : SupervisorState)
    (tr : List KillEvent) :
    kill_after_disarm env s tr = (s, tr ++ [KillEvent.terminate_subprocess], true)
    ∨ kill_after_disarm env s tr =
        (s, tr ++ [KillEvent.terminate_subprocess, KillEvent.prune_processes],
          true)
    ∨ kill_after_disarm env s tr =
        ({ s with matching_processes := 0, mavlink_running := false },
          tr ++ [KillEvent.terminate_subprocess, KillEvent.prune_processes,
            KillEvent.stop_mavlink], false) := by
  rw [kill_after_disarm]
  by_cases ht :
      (terminate_ardupilot_subprocess s.subprocess).1 = TerminateOutcome.killFail
  · exact Or.inl (by rw [if_pos ht])
  · by_cases hp : env.pruneFails
    · exact Or.inr (Or.inl (by rw [if_neg ht, if_pos hp]))
    · refine Or.inr (Or.inr ?_)
      rw [if_neg ht]
      simp [hp]

/-- Structural facts about `kill_ardupilot`: the flag is cleared and its
event is first in the trace, `start_begin` never appears in a kill trace,
and when kill returns without raising the terminate and prune steps ran and
no matching system process remains. -/
theorem kill_ardupilot_spec (env : KillEnv) (s : SupervisorState) :
    (kill_ardupilot env s).1.should_be_running = false
    ∧ (kill_ardupilot env s).2.1.head? = some KillEvent.set_should_be_running_false
    ∧ KillEvent.start_begin ∉ (kill_ardupilot env s).2.1
    ∧ ((kill_ardupilot env s).2.2 = false →
        (kill_ardupilot env s).1.matching_processes = 0
        ∧ KillEvent.terminate_subprocess ∈ (kill_ardupilot env s).2.1
        ∧ KillEvent.prune_processes ∈ (kill_ardupilot env s).2.1) := by
  rw [kill_ardupilot]
  by_cases hplat : s.current_platform = Platform.SITL
  · rw [if_pos hplat]
    rcases kill_after_disarm_spec env { s with should_be_running := false }
        [KillEvent.set_should_be_running_false] with h | h | h <;>
      rw [h] <;> refine ⟨rfl, rfl, by simp, ?_⟩
    · intro hraise; exact absurd hraise (by simp)
    · intro hraise; exact absurd hraise (by simp)
    · intro _; exact ⟨rfl, by simp, by simp⟩
  · rw [if_neg hplat]
    by_cases hdis : env.disarmFails
    · rw [if_pos hdis]
      refine ⟨rfl, rfl, by simp, ?_⟩
      intro hraise; exact absurd hraise (by simp)
    · rw [if_neg hdis]
      rcases kill_after_disarm_spec env { s with should_be_running := false }
          [KillEvent.set_should_be_running_false, KillEvent.disarm_vehicle]
          with h | h | h <;>
        rw [h] <;> refine ⟨rfl, rfl, by simp, ?_⟩
      · intro hraise; exact absurd hraise (by simp)
      · intro hraise; exact absurd hraise (by simp)
      · intro _; exact ⟨rfl, by simp, by simp⟩

/-- C9: the kill path clears `should_be_running` before any termination work
(its event is the head of every kill trace), and in a `restart_ardupilot`
run the start phase only begins after the kill phase — the bounded
termination wait and the prune of firmware-path-matching processes —
completed without raising, at which point no matching process exists. -/
theorem kill_restart_ordering (env : KillEnv) (s : SupervisorState) :
    (kill_ardupilot env s).2.1.head? = some KillEvent.set_should_be_running_false
    ∧ (kill_ardupilot env s).1.should_be_running = false
    ∧ (∀ s1 tr, restart_ardupilot env s = (s1, tr, false) →
        ∃ pre, tr = pre ++ [KillEvent.start_begin]
          ∧ KillEvent.terminate_subprocess ∈ pre
          ∧ KillEvent.prune_processes ∈ pre
          ∧ s1.matching_processes = 0
          ∧ s1.should_be_running = false)
    ∧ (KillEvent.start_begin ∈ (restart_ardupilot env s).2.1 →
        (restart_ardupilot env s).2.2 = false) := by
  obtain ⟨h1, h2, h3, h4⟩ := kill_ardupilot_spec env s
  refine ⟨h2, h1, ?_, ?_⟩
  · intro s1 tr hr
    rw [restart_ardupilot] at hr
    rcases hk : kill_ardupilot env s with ⟨sk, trk, rk⟩
    rw [hk] at hr h1 h4
    cases rk with
    | true => simp at hr
    | false =>
      simp only [Prod.mk.injEq] at hr
      obtain ⟨hs1, htr, -⟩ := hr
      obtain ⟨hmatch, hterm, hprune⟩ := h4 rfl
      exact ⟨trk, htr.symm, hterm, hprune, hs1 ▸ hmatch, hs1 ▸ h1⟩
  · intro hmem
    rw [restart_ardupilot] at hmem ⊢
    rcases hk : kill_ardupilot env s with ⟨sk, trk, rk⟩
    rw [hk] at hmem h3
    cases rk with
    | true => exact absurd hmem h3
    | false => rfl

/-- Failure-free environment for the kill-path witnesses. -/
def killEnvOk : KillEnv := { disarmFails := false, pruneFails := false }

/-- A concrete running Navigator-platform supervisor state. -/
def sNav : SupervisorState :=
  { should_be_running := true, current_platform := Platform.Navigator,
    current_sitl_frame := SITLFrame.UNDEFINED, subprocess := none,
    matching_processes := 2, mavlink_running := true }

theorem kill_restart_ordering_witness :
    (kill_ardupilot killEnvOk sNav).2.1.head? =
      some KillEvent.set_should_be_running_false
    ∧ (kill_ardupilot killEnvOk sNav).1.should_be_running = false
    ∧ ∃ pre, (restart_ardupilot killEnvOk sNav).2.1 =
          pre ++ [KillEvent.start_begin]
        ∧ KillEvent.terminate_subprocess ∈ pre
        ∧ KillEvent.prune_processes ∈ pre
        ∧ (restart_ardupilot killEnvOk sNav).1.matching_processes = 0 := by
  obtain ⟨h1, h2, h3, _⟩ := kill_restart_ordering killEnvOk sNav
  have hfalse : (restart_ardupilot killEnvOk sNav).2.2 = false := rfl
  have heta : restart_ardupilot killEnvOk sNav =
      ((restart_ardupilot killEnvOk sNav).1,
        (restart_ardupilot killEnvOk sNav).2.1, false) := by
    rw [← hfalse]
  obtain ⟨pre, hpre, hterm, hprune, hmatch, -⟩ :=
    h3 (restart_ardupilot killEnvOk sNav).1
      (restart_ardupilot killEnvOk sNav).2.1 heta
  exact ⟨h1, h2, pre, hpre, hterm, hprune, hmatch⟩

/-! ## Board selection -/

theorem mem_insertBoard (b x : FlightControllerType × String) :
    ∀ l, x ∈ insertBoard b l ↔ x = b ∨ x ∈ l := by
  intro l
  induction l with
  | nil => simp [insertBoard]
  | cons c cs ih =>
    rw [insertBoard]
    by_cases h : b.1.value ≤ c.1.value
    · rw [if_pos h]
      simp [or_comm]
    · rw [if_neg h]
      simp only [List.mem_cons, ih]
      tauto

theorem pairwise_value_insertBoard (b : FlightControllerType × String) :
    ∀ l, l.Pairwise (fun x y => x.1.value ≤ y.1.value) →
      (insertBoard b l).Pairwise (fun x y => x.1.value ≤ y.1.value) := by
  intro l
  induction l with
  | nil => intro _; simp [insertBoard]
  | cons c cs ih =>
    intro hp
    rw [List.pairwise_cons] at hp
    obtain ⟨hc, hcs⟩ := hp
    rw [insertBoard]
    by_cases h : b.1.value ≤ c.1.value
    · rw [if_pos h]
      refine List.Pairwise.cons ?_ (List.Pairwise.cons hc hcs)
      intro y hy
      rcases List.mem_cons.mp hy with rfl | hy
      · exact h
      · exact le_trans h (hc y hy)
    · rw [if_neg h]
      refine List.Pairwise.cons ?_ (ih hcs)
      intro y hy
      rcases (mem_insertBoard b y cs).mp hy with rfl | hy
      · exact Nat.le_of_not_le h
      · exact hc y hy

theorem pairwise_value_sortBoards (l : List (FlightControllerType × String)) :
    (sortBoards l).Pairwise (fun x y => x.1.value ≤ y.1.value) := by
  induction l with
  | nil => simp [sortBoards]
  | cons b bs ih => exact pairwise_value_insertBoard b (sortBoards bs) ih

theorem mem_sortBoards (x : FlightControllerType × String) :
    ∀ l, x ∈ sortBoards l ↔ x ∈ l := by
  intro l
  induction l with
  | nil => simp [sortBoards]
  | cons b bs ih =>
    show x ∈ insertBoard b (sortBoards bs) ↔ _
    rw [mem_insertBoard, ih]
    simp

/-- C4: `start_board` with an empty candidate list returns false and starts
nothing; otherwise the candidates are sorted by board-type priority value
ascending and the lowest-value entry wins (the more-than-one-candidate
warning — not an error — is logged exactly when more than one candidate is
present); a winning Navigator board runs exactly the navigator startup
procedure, a winning Serial board runs exactly the serial startup procedure
on its device, and an unrecognized winning board type raises the fatal
`RuntimeError` of line 231. -/
theorem start_board_priority_selection
    (boards : List (FlightControllerType × String)) :
    (boards = [] → start_board boards =
      { outcome := StartBoardOutcome.noBoard, warnedMultiple := false })
    ∧ (boards ≠ [] → ∃ t place,
        (start_board boards).outcome = dispatch_board t place
        ∧ (t, place) ∈ boards
        ∧ (∀ b ∈ boards, t.value ≤ b.1.value)
        ∧ (t = FlightControllerType.Navigator →
            dispatch_board t place =
              StartBoardOutcome.started BoardAction.navigator)
        ∧ (t = FlightControllerType.Serial →
            dispatch_board t place =
              StartBoardOutcome.started (BoardAction.serial place))
        ∧ (t ≠ FlightControllerType.Navigator →
            t ≠ FlightControllerType.Serial →
            dispatch_board t place = StartBoardOutcome.invalidBoardError))
    ∧ (start_board boards).warnedMultiple = decide (1 < boards.length) := by
  by_cases hnil : boards = []
  · subst hnil
    exact ⟨fun _ => rfl, fun h => absurd rfl h, rfl⟩
  · have hempty : boards.isEmpty = false := by
      cases boards with
      | nil => exact absurd rfl hnil
      | cons b bs => rfl
    have hsne : sortBoards boards ≠ [] := by
      intro hs
      obtain ⟨x, hx⟩ := List.exists_mem_of_ne_nil boards hnil
      have hmem : x ∈ sortBoards boards := (mem_sortBoards x boards).mpr hx
      rw [hs] at hmem
      exact (List.not_mem_nil x) hmem
    rcases hs : sortBoards boards with _ | ⟨⟨t, place⟩, rest⟩
    · exact absurd hs hsne
    · have hsb : start_board boards =
          { outcome := dispatch_board t place,
            warnedMultiple := decide (1 < boards.length) } := by
        rw [start_board, hempty]
        simp only [Bool.false_eq_true, if_false, hs, List.head?]
      refine ⟨fun h => absurd h hnil, fun _ => ⟨t, place, ?_, ?_, ?_, ?_, ?_, ?_⟩,
        by rw [hsb]⟩
      · rw [hsb]
      · rw [← mem_sortBoards, hs]
        exact List.mem_cons_self _ _
      · intro b hb
        rw [← mem_sortBoards] at hb
        rw [hs] at hb
        rcases List.mem_cons.mp hb with rfl | hb
        · exact le_refl _
        · have hpw := pairwise_value_sortBoards boards
          rw [hs, List.pairwise_cons] at hpw
          exact hpw.1 b hb
      · intro ht
        subst ht
        rfl
      · intro ht
        subst ht
        rfl
      · intro hnav hser
        cases t with
        | Serial => exact absurd rfl hser
        | Navigator => exact absurd rfl hnav
        | NavigatorR3 => rfl
        | NavigatorR4 => rfl

/-- The detection scenario of the spec: a serial board and a NavigatorR3
board are both present. -/
def demoBoards : List (FlightControllerType × String) :=
  [(FlightControllerType.Serial, "/dev/ttyUSB0"),
    (FlightControllerType.NavigatorR3, "/dev/navigator")]

/-- A detection result whose only candidate is a board type the dispatch of
lines 225-231 does not recognize. -/
def soloNavR3 : List (FlightControllerType × String) :=
  [(FlightControllerType.NavigatorR3, "/dev/navigator")]

theorem start_board_priority_selection_witness :
    (start_board demoBoards).warnedMultiple = true
    ∧ (∃ t place,
        (start_board demoBoards).outcome = dispatch_board t place
        ∧ (t, place) ∈ demoBoards
        ∧ ∀ b ∈ demoBoards, t.value ≤ b.1.value)
    ∧ (start_board soloNavR3).outcome = StartBoardOutcome.invalidBoardError := by
  obtain ⟨-, h2, h3⟩ := start_board_priority_selection demoBoards
  obtain ⟨t, place, hout, hmem, hmin, -, -, -⟩ := h2 (by decide)
  obtain ⟨-, h2s, -⟩ := start_board_priority_selection soloNavR3
  obtain ⟨ts, ps, houts, hmems, -, -, -, hfatal⟩ := h2s (by decide)
  have hpair : (ts, ps) = (FlightControllerType.NavigatorR3, "/dev/navigator") := by
    simpa [soloNavR3] using hmems
  rw [Prod.mk.injEq] at hpair
  refine ⟨by rw [h3]; rfl, ⟨t, place, hout, hmem, hmin⟩, ?_⟩
  rw [houts]
  exact hfatal (by rw [hpair.1]; decide) (by rw [hpair.1]; decide)

/-! ## SITL frame defaulting -/

/-- C8: starting SITL with the Undefined frame records the default frame
VECTORED (never Undefined) as the current SITL frame and logs a warning;
with any defined frame f, f itself is recorded and no warning is logged. -/
theorem run_with_sitl_frame_defaulting (frame : SITLFrame) :
    (run_with_sitl SITLFrame.UNDEFINED =
      { current_platform := Platform.SITL,
        current_sitl_frame := SITLFrame.VECTORED,
        warned_undefined_frame := true })
    ∧ (frame ≠ SITLFrame.UNDEFINED →
        run_with_sitl frame =
          { current_platform := Platform.SITL, current_sitl_frame := frame,
            warned_undefined_frame := false })
    ∧ (run_with_sitl frame).current_sitl_frame ≠ SITLFrame.UNDEFINED := by
  refine ⟨rfl, ?_, ?_⟩
  · intro h
    rw [run_with_sitl, if_neg h]
  · rw [run_with_sitl]
    by_cases h : frame = SITLFrame.UNDEFINED
    · rw [if_pos h]
      decide
    · rw [if_neg h]
      exact h

theorem run_with_sitl_frame_defaulting_witness :
    run_with_sitl SITLFrame.ROVER =
      { current_platform := Platform.SITL,
        current_sitl_frame := SITLFrame.ROVER,
        warned_undefined_frame := false } :=
  (run_with_sitl_frame_defaulting SITLFrame.ROVER).2.1 (by decide)

/-! ## start_mavlink_manager resilience -/

/-- C10: `start_mavlink_manager` catches any failure of registering the
default auxiliary endpoints (GCS Link, MAVLink2Rest) inside its try/except
and only logs it; regardless of those failures it still sets the master
endpoint on the proxy and starts the proxy, so auxiliary-endpoint failure is
never surfaced to its caller (the Navigator, Serial and SITL start
procedures all finish through it).  Moreover, under the rollback collaborator
contract, a rejected GCS Link registration leaves the live endpoint set as it
was. -/
theorem start_mavlink_manager_resilient (env : ProxyEnv) (app_name : String)
    (s : RegistryState) (device : Endpoint) :
    (start_mavlink_manager env app_name s device).master_endpoint = some device
    ∧ (start_mavlink_manager env app_name s device).mavlink_started = true
    ∧ (s.mav.Nodup → (∀ st, env.clearFails st = false) →
        (∀ e st, e ∈ s.mav → env.addFails e st = false) →
        (∀ st, env.addFails (gcs_link_endpoint app_name) st = true) →
        (start_mavlink_manager env app_name s device).mav = s.mav) := by
  refine ⟨rfl, rfl, ?_⟩
  intro hnd hclear hreadd hgcs
  have hloop : add_endpoints_loop env s.mav [gcs_link_endpoint app_name] =
      (s.mav, some (gcs_link_endpoint app_name)) := by
    rw [add_endpoints_loop, hgcs s.mav]
    rfl
  have hadd : add_new_endpoints env s [gcs_link_endpoint app_name] =
      ({ s with mav := s.mav }, some (gcs_link_endpoint app_name)) := by
    rw [add_new_endpoints]
    simp only [hloop]
    rw [reset_endpoints_restores env s.mav s.mav hnd hclear hreadd]
  rw [start_mavlink_manager, hadd]

/-- Oracle environment in which only registrations of the endpoint named
"GCS Link" fail. -/
def envGcsFails : ProxyEnv :=
  { addFails := fun e _ => e.name == "GCS Link",
    removeFails := fun _ _ => false, clearFails := fun _ => false,
    saveFails := false, restartFails := false }

theorem start_mavlink_manager_resilient_witness :
    (start_mavlink_manager envGcsFails "app" stateA epProt).master_endpoint =
      some epProt
    ∧ (start_mavlink_manager envGcsFails "app" stateA epProt).mavlink_started
      = true
    ∧ (start_mavlink_manager envGcsFails "app" stateA epProt).mav =
      stateA.mav := by
  obtain ⟨h1, h2, h3⟩ :=
    start_mavlink_manager_resilient envGcsFails "app" stateA epProt
  refine ⟨h1, h2, h3 (by decide) (fun _ => rfl) ?_ (fun _ => rfl)⟩
  intro e st he
  have he' : e = epA := by simpa [stateA] using he
  subst he'
  rfl

end AirOS
